import Mathlib

/-!
Shallow embedding of `ase/calculators/kim/kim.py`: the OpenKIM calculator
dispatcher.  Pure Python functions become Lean functions; Python exceptions
become an explicit `Except` error channel; external collaborators
(the kimpy knowledgebase, `ase.data` mass tables, the LAMMPS unit converter,
the asap3 library) are modelled as fields of an environment record, since
only their call/return contracts matter to this module.
-/

namespace KimDispatch

/-- A Python exception raised by this module or surfaced through it.
`kimCalculatorError` is the module's own `KIMCalculatorError`;
`importError` models the `ImportError` re-raised when asap3 is missing;
`unboundLocal` models Python's `UnboundLocalError` (a local variable read
before assignment). -/
inductive PyErr where
  | kimCalculatorError (msg : String)
  | importError (msg : String)
  | unboundLocal (var : String)
deriving Repr, DecidableEq

/-- Result of a Python call: a normal return or a raised exception. -/
abbrev PyResult (α : Type) := Except PyErr α

/-- A Python `dict` of caller options, as an association list
(keys are unique in a real dict; values are opaque). -/
abbrev Options := List (String × String)

/-- The keys of an options mapping (Python `set(options)` iterates keys). -/
def keysOf (o : Options) : List String := o.map (·.1)

/-- `os.linesep` on the platforms ASE runs on. -/
def lineSep : String := "\n"

/-- Python `sep.join(strs)`. -/
def joinWith (sep : String) : List String → String
  | [] => ""
  | [s] => s
  | s :: rest => s ++ sep ++ joinWith sep rest

/-- The message of the configuration-conflict error raised by
`_check_conflict_options`, enumerating the conflicting keys. -/
def conflictMsg (simulator : String) (common : List String) : String :=
  "Simulator \"" ++ simulator ++ "\" does not support argument(s): "
    ++ joinWith ", " (common.map (fun s => "\"" ++ s ++ "\""))
    ++ " provided in \"options\", because it is (they are) determined "
    ++ "internally within the KIM calculator"

/-- Embedding of `_check_conflict_options(options, not_allowed_options,
simulator)`: computes the intersection of the option keys with the
disallow-list and raises `KIMCalculatorError` when it is non-empty. -/
def checkConflictOptions (options : Options) (not_allowed_options : List String)
    (simulator : String) : PyResult Unit :=
  let common := (keysOf options).filter (fun k => not_allowed_options.contains k)
  if common.isEmpty then .ok ()
  else .error (.kimCalculatorError (conflictMsg simulator common))

/-- Classification stored in the knowledgebase for an item
(`kimpy collections` item types relevant here). -/
inductive CollectionItemType where
  | portableModel
  | simulatorModel
deriving Repr, DecidableEq

/-- Metadata record of a Simulator Model, as read by
`_get_simulator_model_info` from a `kimpy_wrappers.SimulatorModel` handle. -/
structure SMInfo where
  simulator_name : String
  supported_species : List String
  supported_units : String
  atom_style : Option String
  model_defn : List String
deriving Repr, DecidableEq

/-- Modelled from the spec: the external collaborators of `kim.py` that are
not part of this source file — the knowledgebase lookups
(`kimpy_wrappers.ModelCollections`, `kimpy_wrappers.SimulatorModel`, the
`KIMModelCalculator` species query), the periodic-table lookups
`ase.data.atomic_numbers` / `ase.data.atomic_masses`, the unit converter
`ase.calculators.lammps.convert` (from ASE's internal mass unit to the
target unit system) together with Python's `str` rendering of the converted
float, and the availability of the optional `asap3` library. -/
structure KIMEnv where
  get_item_type : String → CollectionItemType
  smInfo : String → SMInfo
  pmSupportedSpecies : String → List String
  asap3Available : Bool
  atomicNumbers : String → Option Nat
  atomicMasses : Nat → ℚ
  convertMass : ℚ → String → ℚ
  floatStr : ℚ → String

/-- Embedding of `_is_portable_model`: one knowledgebase item-type query
compared against the portable-model item type. -/
def isPortableModel (env : KIMEnv) (model_name : String) : Bool :=
  env.get_item_type model_name == .portableModel

/-- Embedding of `_get_simulator_model_info`: reads the five metadata fields
of a Simulator Model (returned in the source's tuple order). -/
def getSimulatorModelInfo (env : KIMEnv) (model_name : String) :
    String × List String × String × List String × Option String :=
  let sm := env.smInfo model_name
  (sm.simulator_name, sm.supported_species, sm.supported_units,
    sm.model_defn, sm.atom_style)

/-- Embedding of `_get_kim_pm_supported_species`: the species list queried
from a scoped `KIMModelCalculator` handle for a Portable Model. -/
def getKimPmSupportedSpecies (env : KIMEnv) (model_name : String) : List String :=
  env.pmSupportedSpecies model_name

/-- The string `str(convert(atomic_masses[z], "mass", "ASE", supported_units))`
for atomic number `z`. -/
def massStrOf (env : KIMEnv) (z : Nat) (supported_units : String) : String :=
  env.floatStr (env.convertMass (env.atomicMasses z) supported_units)

/-- The `parameters` dictionary built by `_get_params_for_LAMMPS_calculator`
(key set is fixed, so it is a record; `atom_style = none` models an absent
key). -/
structure LAMMPSParams where
  atom_style : Option String
  units : String
  model_init : List String
  kim_interactions : String
  masses : List String
deriving Repr, DecidableEq

/-- The mass-table loop of `_get_params_for_LAMMPS_calculator`: for the
species at 0-based position `i`, look up its atomic number (raising
`KIMCalculatorError` for an unknown symbol) and emit
`str(i + 1) + " " + str(convert(...))`. -/
def buildMasses (env : KIMEnv) (supported_units : String) :
    Nat → List String → PyResult (List String)
  | _, [] => .ok []
  | i, species :: rest =>
    match env.atomicNumbers species with
    | none => .error (.kimCalculatorError ("Unknown element species " ++ species ++ "."))
    | some z =>
      (buildMasses env supported_units (i + 1) rest).map
        (fun tail => (toString (i + 1) ++ " " ++ massStrOf env z supported_units) :: tail)

/-- Python truthiness of the optional `atom_style` string: the key is set
only when the value is present and non-empty. -/
def truthyAtomStyle : Option String → Option String
  | some s => if s = "" then none else some s
  | none => none

/-- Embedding of `_get_params_for_LAMMPS_calculator`. -/
def getParamsForLAMMPSCalculator (env : KIMEnv) (model_name : String)
    (supported_units : String) (supported_species : List String)
    (atom_style : Option String) : PyResult LAMMPSParams :=
  (buildMasses env supported_units 0 supported_species).map (fun masses =>
    { atom_style := truthyAtomStyle atom_style
      units := supported_units
      model_init := ["kim_init " ++ model_name ++ " " ++ supported_units ++ lineSep]
      kim_interactions := "kim_interactions " ++ joinWith " " supported_species ++ lineSep
      masses := masses })

/-- The LAMMPS header list built on the lammpslib path of `KIM`: a `units`
line (needed because LAMMPSlib scans the header for units), the `kim_init`
line, and an `atom_modify` line. -/
def lammpslibModelInit (model_name supported_units : String) : List String :=
  ["units " ++ supported_units ++ lineSep,
   "kim_init " ++ model_name ++ " " ++ supported_units ++ lineSep,
   "atom_modify map array sort 0 0" ++ lineSep]

/-- The `atom_types` dict built on the lammpslib path: species at 0-based
position `i` maps to type `i + 1`. -/
def lammpslibAtomTypes (supported_species : List String) : List (String × Nat) :=
  supported_species.enum.map (fun p => (p.2, p.1 + 1))

/-- The `lmpcmds` list built on the lammpslib path. -/
def lammpslibKimInteractions (supported_species : List String) : List String :=
  ["kim_interactions " ++ joinWith " " supported_species]

/-- Character class of the regex `[A-Za-z0-9_()]` used on the ASAP
simulator-model path. -/
def emtClassChar (c : Char) : Bool :=
  c.isAlpha || c.isDigit || c == '_' || c == '(' || c == ')'

/-- Largest index `p ≥ 1` of a char equal to a closing bracket in `r`
(`none` if there is no such index). -/
def lastCloseIdx (r : List Char) : Option Nat :=
  r.enum.foldl (fun acc p => if 1 ≤ p.1 && p.2 == ')' then some p.1 else acc) none

/-- Embedding of `re.search(r"\(([A-Za-z0-9_\(\)]+)\)", s)` restricted to
what the source consumes: the first capture group of the leftmost match.
A match starts at an opening bracket; the group is the longest (greedy,
with backtracking over the class that itself contains the closing bracket)
non-empty run of class characters followed by a closing bracket. -/
def reSearchParen : List Char → Option (List Char)
  | [] => none
  | c :: t =>
    if c = '(' then
      match lastCloseIdx (t.takeWhile emtClassChar) with
      | some p => some (t.take p)
      | none => reSearchParen t
    else reSearchParen t

/-- Parameter-set selection among the fixed EMT parameter providers of asap3. -/
inductive EMTParams where
  | rasmussen
  | metalGlass
deriving Repr, DecidableEq

/-- An asap3 EMT calculator as configured by this module: the chosen
parameter provider and the `subtractE0` setting (always disabled by
`set_subtractE0(False)` after construction). -/
structure AsapEMT where
  parameters : Option EMTParams
  subtractE0 : Bool
deriving Repr, DecidableEq

/-- A constructed backend instance, recording exactly the arguments the
source hands to each external constructor. -/
inductive Calc where
  | kimModel (modelname : String) (debug : Bool) (options : Options)
  | asapOpenKIM (name : String) (verbose : Bool) (options : Options)
  | asapEMT (emt : AsapEMT)
  | lammps (parameters : LAMMPSParams) (specorder : List String)
      (keep_tmp_files : Bool) (options : Options)
  | lammpslib (lammps_header : List String) (lmpcmds : List String)
      (atom_types : List (String × Nat)) (log_file : String)
      (keep_alive : Bool) (options : Options)
deriving Repr, DecidableEq

/-- The caller options a constructed backend received (`none` when its
constructor takes no caller-options argument at all). -/
def Calc.optionsOf : Calc → Option Options
  | .kimModel _ _ o => some o
  | .asapOpenKIM _ _ o => some o
  | .asapEMT _ => none
  | .lammps _ _ _ o => some o
  | .lammpslib _ _ _ _ _ o => some o

/-- Message of the `ImportError` raised when asap3 is not installed
(the prefix `str(e)` is modelled by the standard interpreter text). -/
def asapImportMsg : String :=
  "No module named 'asap3' You need to install asap3 first."

def unitMismatchMsg (supported_units : String) : String :=
  "KIM Simulator Model units are \"" ++ supported_units
    ++ "\", but expected to be \"ase\" for ASAP."

def modelDefnEmptyListMsg (model_name : String) : String :=
  "model-defn is an empty list in metadata file of Simulator Model " ++ model_name

def modelDefnTooManyMsg (n : Nat) : String :=
  "model-defn should contain only one entry for an ASAP model (found "
    ++ toString n ++ " lines)"

def modelDefnEmptyStringMsg (model_name : String) : String :=
  "model-defn contains an empty string in metadata file of Simulator Model "
    ++ model_name

def unknownAsapModelMsg (model_defn : String) : String :=
  "Unknown model \"" ++ model_defn ++ "\" for simulator ASAP."

/-- Python `s.strip()`: drop leading and trailing whitespace. -/
def pyStrip (s : String) : String :=
  String.mk (((s.data.dropWhile Char.isWhitespace).reverse.dropWhile
    Char.isWhitespace).reverse)

/-- Python `s.startswith(pre)`. -/
def pyStartsWith (s pre : String) : Bool :=
  pre.data.isPrefixOf s.data

/-- The EMT branch of `_asap_calculator` for simulator models, applied to the
stripped single model-definition line `d` (which starts with `EMT`): search
for a parenthesized parameter-set name and construct the matching asap3 EMT
calculator, then disable `subtractE0`. -/
def asapEMTBranch (d : String) : PyResult Calc :=
  match reSearchParen d.data with
  | none => .ok (.asapEMT ⟨none, false⟩)
  | some g =>
    if pyStartsWith (String.mk g) "EMTRasmussenParameters" then
      .ok (.asapEMT ⟨some .rasmussen, false⟩)
    else if pyStartsWith (String.mk g) "EMTMetalGlassParameters" then
      .ok (.asapEMT ⟨some .metalGlass, false⟩)
    else .error (.kimCalculatorError (unknownAsapModelMsg d))

/-- The model-definition shape check of `_asap_calculator` for simulator
models: `model_defn` must contain exactly one entry that is a non-empty
string. -/
def checkModelDefnShape (model_name : String) (model_defn : List String) :
    PyResult Unit :=
  if model_defn.length = 0 then
    .error (.kimCalculatorError (modelDefnEmptyListMsg model_name))
  else if model_defn.length > 1 then
    .error (.kimCalculatorError (modelDefnTooManyMsg model_defn.length))
  else if model_defn.contains "" then
    .error (.kimCalculatorError (modelDefnEmptyStringMsg model_name))
  else .ok ()

/-- Embedding of the `model_type == "sm"` branch of `_asap_calculator`
(after the asap3 import and the units check): run the shape check, then the
EMT branch on the stripped line; a line not starting with `EMT` leaves the
local `asap_calc` unassigned, so the trailing `set_subtractE0` call raises
`UnboundLocalError`. -/
def asapSmDefnCheck (model_name : String) (model_defn : List String) :
    PyResult Calc :=
  (checkModelDefnShape model_name model_defn).bind (fun _ =>
    let d := pyStrip (model_defn.headD "")
    if pyStartsWith d "EMT" then asapEMTBranch d
    else .error (.unboundLocal "asap_calc"))

/-- The parenthesized parameter-set name found in `d` (if any) names one of
the two parameter providers the source recognizes. -/
def emtDefnRecognized (d : String) : Bool :=
  match reSearchParen d.data with
  | none => true
  | some g =>
    pyStartsWith (String.mk g) "EMTRasmussenParameters"
      || pyStartsWith (String.mk g) "EMTMetalGlassParameters"

/-- Embedding of `_asap_calculator(model_name, "sm", model_defn=...,
supported_units=...)`. -/
def asapCalculatorSm (env : KIMEnv) (model_name : String)
    (model_defn : List String) (supported_units : String) : PyResult Calc :=
  if env.asap3Available = false then .error (.importError asapImportMsg)
  else if supported_units ≠ "ase" then
    .error (.kimCalculatorError (unitMismatchMsg supported_units))
  else asapSmDefnCheck model_name model_defn

/-- Embedding of `_asap_calculator(model_name, "pm", verbose=...,
options=...)`. -/
def asapCalculatorPm (env : KIMEnv) (model_name : String) (verbose : Bool)
    (options : Options) : PyResult Calc :=
  if env.asap3Available = false then .error (.importError asapImportMsg)
  else .ok (.asapOpenKIM model_name verbose options)

def kimmodelNotAllowedOptions : List String := ["modelname", "debug"]

def lammpsrunNotAllowedOptions : List String :=
  ["parameters", "files", "specorder", "keep_tmp_files"]

def lammpslibNotAllowedOptions : List String :=
  ["lammps_header", "lmpcmds", "atom_types", "log_file", "keep_alive"]

def asapKimpmNotAllowedOptions : List String := ["name", "verbose"]

def asapKimsmNotAllowedOptions : List String := ["Params"]

/-- Python `str` formatting of the `simulator` argument where it may still
be `None` (inside error messages on the simulator-model branch). -/
def fmtSimulator : Option String → String
  | none => "None"
  | some s => s

/-- Embedding of the public entry point `KIM(model_name, simulator=None,
options=None, debug=False)`. -/
def KIM (env : KIMEnv) (model_name : String) (simulator : Option String)
    (options : Option Options) (debug : Bool) : PyResult Calc :=
  let options := options.getD []
  if isPortableModel env model_name then
    let simulator := simulator.getD "kimmodel"
    if simulator = "kimmodel" then
      (checkConflictOptions options kimmodelNotAllowedOptions simulator).map
        (fun _ => .kimModel model_name debug options)
    else if simulator = "asap" then
      (checkConflictOptions options asapKimpmNotAllowedOptions simulator).bind
        (fun _ => asapCalculatorPm env model_name debug options)
    else if simulator = "lammpsrun" then
      (checkConflictOptions options lammpsrunNotAllowedOptions simulator).bind
        (fun _ =>
          let supported_species := getKimPmSupportedSpecies env model_name
          (getParamsForLAMMPSCalculator env model_name "metal"
              supported_species none).map
            (fun parameters => .lammps parameters supported_species debug options))
    else if simulator = "lammpslib" then
      .error (.kimCalculatorError
        ("\"lammpslib\" calculator does not support KIM Portable Models. Try "
          ++ "using the \"lammpsrun\" calculator."))
    else
      .error (.kimCalculatorError
        ("Unsupported simulator \"" ++ simulator
          ++ "\" requested to run KIM Portable Model."))
  else
    let info := getSimulatorModelInfo env model_name
    let simulator_name := info.1
    let supported_species := info.2.1
    let supported_units := info.2.2.1
    let model_defn := info.2.2.2.1
    let atom_style := info.2.2.2.2
    let simulator : Option String :=
      match simulator with
      | none =>
        if simulator_name = "ASAP" then some "asap"
        else if simulator_name = "LAMMPS" then some "lammpslib"
        else none
      | some s => some s
    if simulator_name = "ASAP" then
      (checkConflictOptions options asapKimsmNotAllowedOptions
          (fmtSimulator simulator)).bind
        (fun _ => asapCalculatorSm env model_name model_defn supported_units)
    else if simulator_name = "LAMMPS" then
      if simulator = some "lammpsrun" then
        (checkConflictOptions options lammpsrunNotAllowedOptions
            (fmtSimulator simulator)).bind
          (fun _ =>
            (getParamsForLAMMPSCalculator env model_name supported_units
                supported_species atom_style).map
              (fun parameters =>
                .lammps parameters supported_species debug []))
      else if simulator = some "lammpslib" then
        (checkConflictOptions options lammpslibNotAllowedOptions
            (fmtSimulator simulator)).map
          (fun _ =>
            .lammpslib (lammpslibModelInit model_name supported_units)
              (lammpslibKimInteractions supported_species)
              (lammpslibAtomTypes supported_species)
              "lammps.log" true options)
      else
        .error (.kimCalculatorError
          ("Unknown LAMMPS calculator: \"" ++ fmtSimulator simulator ++ "\"."))
    else
      .error (.kimCalculatorError
        ("Unsupported simulator: \"" ++ simulator_name ++ "\"."))

/-- Embedding of `get_model_supported_species`. -/
def getModelSupportedSpecies (env : KIMEnv) (model_name : String) : List String :=
  if isPortableModel env model_name then getKimPmSupportedSpecies env model_name
  else (getSimulatorModelInfo env model_name).2.1

/-- Split a character list at every space, like Python `s.split(" ")`. -/
def splitSp : List Char → List (List Char)
  | [] => [[]]
  | c :: t =>
    if c = ' ' then [] :: splitSp t
    else
      match splitSp t with
      | [] => [[c]]
      | h :: r => (c :: h) :: r

/-- The decimal digits of `n`, most significant first (the character list
underlying `Nat.repr n`, i.e. Python `str(n)` for a non-negative int). -/
def natChars (n : Nat) : List Char :=
  if _h : n < 10 then [Nat.digitChar n]
  else natChars (n / 10) ++ [Nat.digitChar (n % 10)]
termination_by n
decreasing_by exact Nat.div_lt_self (by omega) (by omega)

/-- One step of decimal accumulation, as in Python `int(s)`. -/
def decStep (n : Nat) (c : Char) : Nat := n * 10 + (c.toNat - '0'.toNat)

/-- Parse a non-empty all-digit character list as a decimal number
(Python `int(s)` restricted to the inputs it accepts without sign). -/
def parseDecimal (cs : List Char) : Option Nat :=
  if cs ≠ [] ∧ cs.all Char.isDigit then some (cs.foldl decStep 0) else none

/-- Re-parse a generated mass-table line `"<index> <mass>"`: split at spaces
into exactly two fields and read the first as a decimal number. -/
def parseMassLine (cs : List Char) : Option (Nat × List Char) :=
  match splitSp cs with
  | [a, b] => (parseDecimal a).map (fun k => (k, b))
  | _ => none

/-- A concrete environment used to evaluate the embedding on closed inputs:
one portable model `"pm"`, simulator models for each native simulator, a
two-element periodic table, and an identity `metal` mass conversion. -/
def testEnv : KIMEnv where
  get_item_type := fun n => if n = "pm" then .portableModel else .simulatorModel
  smInfo := fun n =>
    if n = "sm_lammps" then ⟨"LAMMPS", ["Al", "Ni"], "metal", none, ["pair_style eam"]⟩
    else if n = "sm_asap_emt" then
      ⟨"ASAP", ["Cu"], "ase", none, ["EMT(EMTRasmussenParameters)"]⟩
    else if n = "sm_asap_lj" then ⟨"ASAP", ["Ar"], "ase", none, ["LJ_Potential"]⟩
    else ⟨"OTHER", [], "metal", none, []⟩
  pmSupportedSpecies := fun _ => ["Al", "Ni"]
  asap3Available := true
  atomicNumbers := fun s =>
    if s = "Al" then some 13 else if s = "Ni" then some 28 else none
  atomicMasses := fun z => z
  convertMass := fun m u => if u = "metal" then m else m + 1
  floatStr := fun q => toString q.num

/-- A second simulator-model metadata store, used to instantiate the
independence theorem for portable models. -/
def otherSmInfo : String → SMInfo :=
  fun _ => ⟨"ASAP", ["Pt"], "ase", some "atomic", ["EMT"]⟩

/-- The parameters built for the portable model of `testEnv` on the
lammpsrun path (units are fixed to `metal`). -/
def pTest : LAMMPSParams :=
  { atom_style := none
    units := "metal"
    model_init := ["kim_init pm metal" ++ lineSep]
    kim_interactions := "kim_interactions Al Ni" ++ lineSep
    masses := ["1 13", "2 28"] }

/-- The parameters built for the simulator model `"sm_lammps"` of `testEnv`
on the lammpsrun path. -/
def pSmTest : LAMMPSParams :=
  { atom_style := none
    units := "metal"
    model_init := ["kim_init sm_lammps metal" ++ lineSep]
    kim_interactions := "kim_interactions Al Ni" ++ lineSep
    masses := ["1 13", "2 28"] }

/-- `a` occurs as a contiguous substring of `b`. -/
def strInfix (a b : String) : Prop := a.data <:+: b.data

instance : ∀ a b, Decidable (strInfix a b) := fun a b => List.decidableInfix a.data b.data

theorem digitChar_isDigit : ∀ d, d < 10 → (Nat.digitChar d).isDigit = true := by decide

theorem digitChar_val : ∀ d, d < 10 → (Nat.digitChar d).toNat - '0'.toNat = d := by decide

theorem toDigitsCore_eq_natChars (fuel : Nat) :
    ∀ (n : Nat) (ds : List Char), n < fuel →
      Nat.toDigitsCore 10 fuel n ds = natChars n ++ ds := by
  induction fuel with
  | zero => intro n ds h; omega
  | succ f ih =>
    intro n ds h
    unfold Nat.toDigitsCore
    by_cases h10 : n / 10 = 0
    · have hn : n < 10 := by omega
      simp only [h10, if_true]
      rw [natChars]
      simp [hn, Nat.mod_eq_of_lt hn]
    · have hge : 10 ≤ n := by
        by_contra hc
        exact h10 (Nat.div_eq_of_lt (by omega))
      have hlt : n / 10 < f := by
        have := Nat.div_lt_self (by omega : 0 < n) (by omega : 1 < 10)
        omega
      simp only [h10, if_false]
      rw [ih (n / 10) _ hlt]
      conv_rhs => rw [natChars, dif_neg (show ¬n < 10 by omega)]
      simp [List.append_assoc]

theorem repr_data_eq_natChars (n : Nat) : (Nat.repr n).data = natChars n := by
  show (Nat.toDigits 10 n).asString.data = natChars n
  have : (Nat.toDigits 10 n).asString.data = Nat.toDigits 10 n := rfl
  rw [this]
  unfold Nat.toDigits
  rw [toDigitsCore_eq_natChars (n + 1) n [] (Nat.lt_succ_self n)]
  simp

theorem natChars_ne_nil (n : Nat) : natChars n ≠ [] := by
  rw [natChars]
  split
  · simp
  · simp

theorem natChars_all_digit (n : Nat) : ∀ c ∈ natChars n, c.isDigit = true := by
  induction n using natChars.induct with
  | case1 n h =>
    rw [natChars]
    simp only [h, dif_pos]
    intro c hc
    rw [List.mem_singleton] at hc
    subst hc
    exact digitChar_isDigit n h
  | case2 n h ih =>
    rw [natChars]
    simp only [h, dif_neg]
    intro c hc
    rcases List.mem_append.1 hc with hc | hc
    · exact ih c hc
    · rw [List.mem_singleton] at hc
      subst hc
      exact digitChar_isDigit _ (Nat.mod_lt n (by omega))

theorem foldl_decStep_natChars (n : Nat) :
    ∀ a : Nat, (natChars n).foldl decStep a = a * 10 ^ (natChars n).length + n := by
  induction n using natChars.induct with
  | case1 n h =>
    intro a
    rw [natChars]
    simp only [h, dif_pos, List.foldl, List.length]
    unfold decStep
    rw [digitChar_val n h]
    ring
  | case2 n h ih =>
    intro a
    rw [natChars, dif_neg h]
    rw [List.foldl_append, ih a, List.length_append]
    simp only [List.foldl, List.length]
    unfold decStep
    rw [digitChar_val _ (Nat.mod_lt n (by omega))]
    have hdm : 10 * (n / 10) + n % 10 = n := Nat.div_add_mod n 10
    ring_nf
    omega

theorem parseDecimal_natChars (n : Nat) : parseDecimal (natChars n) = some n := by
  unfold parseDecimal
  rw [if_pos]
  · rw [foldl_decStep_natChars n 0]
    simp
  · exact ⟨natChars_ne_nil n, List.all_eq_true.2 (natChars_all_digit n)⟩

theorem parseDecimal_repr (n : Nat) : parseDecimal ((Nat.repr n).data) = some n := by
  rw [repr_data_eq_natChars]
  exact parseDecimal_natChars n

theorem splitSp_no_space : ∀ cs : List Char, (∀ c ∈ cs, c ≠ ' ') → splitSp cs = [cs]
  | [], _ => rfl
  | c :: t, h => by
    unfold splitSp
    rw [if_neg (h c (List.mem_cons_self c t))]
    rw [splitSp_no_space t (fun x hx => h x (List.mem_cons_of_mem c hx))]

theorem splitSp_append (b : List Char) :
    ∀ a : List Char, (∀ c ∈ a, c ≠ ' ') →
      splitSp (a ++ ' ' :: b) = a :: splitSp b
  | [], _ => by simp [splitSp]
  | c :: t, h => by
    have hc : c ≠ ' ' := h c (List.mem_cons_self c t)
    have ih := splitSp_append b t (fun x hx => h x (List.mem_cons_of_mem c hx))
    show splitSp (c :: (t ++ ' ' :: b)) = (c :: t) :: splitSp b
    rw [splitSp, if_neg hc, ih]

theorem isDigit_ne_space {c : Char} (h : c.isDigit = true) : c ≠ ' ' := by
  intro he
  subst he
  simp [Char.isDigit] at h

/-- Re-parsing a generated `"<i+1> <mass>"` line recovers the 1-based index
and the mass string, provided the mass string contains no space. -/
theorem parseMassLine_roundtrip (i : Nat) (m : String)
    (hm : ∀ c ∈ m.data, c ≠ ' ') :
    parseMassLine ((toString (i + 1) ++ " " ++ m).data) =
      some (i + 1, m.data) := by
  have hd : (toString (i + 1) ++ " " ++ m).data =
      (Nat.repr (i + 1)).data ++ ' ' :: m.data := by
    show ((toString (i + 1) ++ " ") ++ m).data = (toString (i + 1)).data ++ ' ' :: m.data
    rw [String.data_append, String.data_append, List.append_assoc]
    rfl
  rw [hd]
  unfold parseMassLine
  rw [splitSp_append m.data (Nat.repr (i + 1)).data
    (by
      intro c hc
      exact isDigit_ne_space (by
        rw [repr_data_eq_natChars] at hc
        exact natChars_all_digit _ c hc)),
    splitSp_no_space m.data hm]
  show (parseDecimal ((Nat.repr (i + 1)).data)).map (fun k => (k, m.data)) =
    some (i + 1, m.data)
  rw [parseDecimal_repr]
  rfl

theorem strInfix_joinWith (sep : String) :
    ∀ (l : List String) (s : String), s ∈ l → strInfix s (joinWith sep l)
  | [], s, h => absurd h (List.not_mem_nil s)
  | [x], s, h => by
    rcases List.mem_singleton.1 h with rfl
    exact List.infix_refl _
  | x :: y :: t, s, h => by
    rcases List.mem_cons.1 h with rfl | h'
    · show s.data <:+: (s ++ sep ++ joinWith sep (y :: t)).data
      exact ⟨[], (sep ++ joinWith sep (y :: t)).data,
        by simp [String.data_append, List.append_assoc]⟩
    · have ih := strInfix_joinWith sep (y :: t) s h'
      show s.data <:+: (x ++ sep ++ joinWith sep (y :: t)).data
      refine ih.trans ⟨(x ++ sep).data, [], ?_⟩
      simp [String.data_append, List.append_assoc]

theorem conflictMsg_mem {simulator : String} {common : List String} {k : String}
    (h : k ∈ common) :
    strInfix ("\"" ++ k ++ "\"") (conflictMsg simulator common) := by
  have h1 : ("\"" ++ k ++ "\"").data <:+:
      (joinWith ", " (common.map (fun s => "\"" ++ s ++ "\""))).data :=
    strInfix_joinWith ", " _ _ (List.mem_map_of_mem (fun s => "\"" ++ s ++ "\"") h)
  show ("\"" ++ k ++ "\"").data <:+: (conflictMsg simulator common).data
  unfold conflictMsg
  simp only [String.data_append]
  exact h1.trans ⟨("Simulator \"".data ++ simulator.data
      ++ "\" does not support argument(s): ".data),
    (" provided in \"options\", because it is (they are) determined ".data
      ++ "internally within the KIM calculator".data),
    by simp [List.append_assoc]⟩

/-- C1: the option validator fails (with `KIMCalculatorError`) iff the option
keys intersect the disallow-list; on failure every intersecting key appears
(quoted) in the error message; on success it returns `()` (the embedding is a
pure function, mirroring that the source only reads `options`). -/
theorem checkConflictOptions_spec (options : Options) (D : List String)
    (simulator : String) :
    (checkConflictOptions options D simulator = .ok () ↔
      ∀ k ∈ keysOf options, k ∉ D) ∧
    (∀ msg, checkConflictOptions options D simulator =
        .error (.kimCalculatorError msg) →
      ∀ k, k ∈ keysOf options → k ∈ D → strInfix ("\"" ++ k ++ "\"") msg) ∧
    ((∃ k ∈ keysOf options, k ∈ D) → ∃ msg,
      checkConflictOptions options D simulator =
        .error (.kimCalculatorError msg)) := by
  have hmem : ∀ k, k ∈ (keysOf options).filter (fun k => D.contains k) ↔
      (k ∈ keysOf options ∧ k ∈ D) := by
    intro k; simp [List.mem_filter]
  rcases hc : (keysOf options).filter (fun k => D.contains k) with _ | ⟨a, as⟩
  · have hok : checkConflictOptions options D simulator = .ok () := by
      simp only [checkConflictOptions, hc]; rfl
    refine ⟨⟨fun _ k hk hD => ?_, fun _ => hok⟩, fun msg hmsg => ?_, fun hex => ?_⟩
    · have : k ∈ ([] : List String) := by
        rw [← hc]; exact (hmem k).2 ⟨hk, hD⟩
      cases this
    · rw [hok] at hmsg; cases hmsg
    · obtain ⟨k, hk, hD⟩ := hex
      have : k ∈ ([] : List String) := by
        rw [← hc]; exact (hmem k).2 ⟨hk, hD⟩
      cases this
  · have herr : checkConflictOptions options D simulator =
        .error (.kimCalculatorError (conflictMsg simulator (a :: as))) := by
      simp only [checkConflictOptions, hc]; rfl
    refine ⟨⟨fun hok => ?_, fun hall => ?_⟩, fun msg hmsg k hk hD => ?_,
      fun _ => ⟨conflictMsg simulator (a :: as), herr⟩⟩
    · rw [herr] at hok; cases hok
    · have ha : a ∈ (keysOf options).filter (fun k => D.contains k) := by
        rw [hc]; exact List.mem_cons_self a as
      exact absurd ((hmem a).1 ha).2 (hall a ((hmem a).1 ha).1)
    · rw [herr] at hmsg
      have : conflictMsg simulator (a :: as) = msg := by
        injection hmsg with h1; injection h1
      subst this
      refine conflictMsg_mem ?_
      rw [← hc]
      exact (hmem k).2 ⟨hk, hD⟩

/-- Witness for C1 at concrete inputs: with options `files`, `foo` and the
lammpsrun disallow-list, validation fails and the message quotes `files`;
with no conflicting key, validation succeeds. -/
theorem checkConflictOptions_spec_witness :
    strInfix "\"files\"" (conflictMsg "lammpsrun" ["files"]) ∧
    checkConflictOptions [("foo", "1")] ["parameters", "files"] "lammpsrun" = .ok () := by
  constructor
  · exact (checkConflictOptions_spec [("files", "x"), ("foo", "1")]
      ["parameters", "files", "specorder", "keep_tmp_files"] "lammpsrun").2.1
      (conflictMsg "lammpsrun" ["files"]) rfl "files" (by decide) (by decide)
  · exact (checkConflictOptions_spec [("foo", "1")] ["parameters", "files"]
      "lammpsrun").1.2 (by decide)

theorem buildMasses_ok_spec (env : KIMEnv) (units : String) :
    ∀ (species : List String) (i : Nat) (ms : List String),
      buildMasses env units i species = .ok ms →
      ms.length = species.length ∧
      ∀ j s, species[j]? = some s →
        ∃ z, env.atomicNumbers s = some z ∧
          ms[j]? = some (toString (i + j + 1) ++ " " ++ massStrOf env z units) := by
  intro species
  induction species with
  | nil =>
    intro i ms h
    simp only [buildMasses] at h
    cases h
    exact ⟨rfl, by intro j s hs; simp at hs⟩
  | cons s rest ih =>
    intro i ms h
    simp only [buildMasses] at h
    cases hz : env.atomicNumbers s with
    | none => rw [hz] at h; cases h
    | some z =>
      rw [hz] at h
      cases hb : buildMasses env units (i + 1) rest with
      | error e => rw [hb] at h; cases h
      | ok tail =>
        rw [hb] at h
        simp only [Except.map] at h
        cases h
        obtain ⟨hlen, hget⟩ := ih (i + 1) tail hb
        refine ⟨by simp [hlen], ?_⟩
        intro j s' hs'
        cases j with
        | zero =>
          simp at hs'
          subst hs'
          exact ⟨z, hz, by simp⟩
        | succ j' =>
          simp only [List.getElem?_cons_succ] at hs' ⊢
          obtain ⟨z', hz', hm⟩ := hget j' s' hs'
          refine ⟨z', hz', ?_⟩
          rw [show i + (j' + 1) + 1 = i + 1 + j' + 1 from by omega]
          exact hm

theorem buildMasses_err_spec (env : KIMEnv) (units : String) :
    ∀ (species : List String) (i : Nat),
      (∃ s ∈ species, env.atomicNumbers s = none) →
      ∃ s', s' ∈ species ∧ env.atomicNumbers s' = none ∧
        buildMasses env units i species =
          .error (.kimCalculatorError ("Unknown element species " ++ s' ++ ".")) := by
  intro species
  induction species with
  | nil => intro i h; obtain ⟨s, hs, _⟩ := h; cases hs
  | cons s rest ih =>
    intro i h
    cases hz : env.atomicNumbers s with
    | none =>
      refine ⟨s, List.mem_cons_self s rest, hz, ?_⟩
      simp only [buildMasses, hz]
    | some z =>
      obtain ⟨s0, hs0, hz0⟩ := h
      rcases List.mem_cons.1 hs0 with rfl | hs0'
      · rw [hz] at hz0; cases hz0
      · obtain ⟨s', hs', hz', hb⟩ := ih (i + 1) ⟨s0, hs0', hz0⟩
        refine ⟨s', List.mem_cons_of_mem s hs', hz', ?_⟩
        simp only [buildMasses, hz, hb, Except.map]

/-- C2: on the LAMMPS text-command builder, the `kim_interactions` command
joins the species with single spaces in input order, the mass table has one
entry per species in the same order, and the entry at 0-based position `j`
carries the 1-based index `j + 1`; the lammpslib `kim_interactions` command
preserves the same order. -/
theorem speciesOrder_spec (env : KIMEnv) (model_name supported_units : String)
    (supported_species : List String) (atom_style : Option String)
    (p : LAMMPSParams)
    (h : getParamsForLAMMPSCalculator env model_name supported_units
      supported_species atom_style = .ok p) :
    p.kim_interactions =
      "kim_interactions " ++ joinWith " " supported_species ++ lineSep ∧
    p.masses.length = supported_species.length ∧
    (∀ j s, supported_species[j]? = some s →
      ∃ z, env.atomicNumbers s = some z ∧
        p.masses[j]? =
          some (toString (j + 1) ++ " " ++ massStrOf env z supported_units)) ∧
    lammpslibKimInteractions supported_species =
      ["kim_interactions " ++ joinWith " " supported_species] := by
  unfold getParamsForLAMMPSCalculator at h
  cases hb : buildMasses env supported_units 0 supported_species with
  | error e => rw [hb] at h; cases h
  | ok ms =>
    rw [hb] at h
    simp only [Except.map] at h
    cases h
    obtain ⟨hlen, hget⟩ := buildMasses_ok_spec env supported_units
      supported_species 0 ms hb
    refine ⟨rfl, hlen, ?_, rfl⟩
    intro j s hs
    obtain ⟨z, hz, hm⟩ := hget j s hs
    exact ⟨z, hz, by simpa using hm⟩

/-- Witness for C2 at a concrete environment with species `["Al", "Ni"]`. -/
theorem speciesOrder_spec_witness :
    pTest.kim_interactions = "kim_interactions " ++ joinWith " " ["Al", "Ni"] ++ lineSep ∧
    pTest.masses.length = 2 ∧
    (∃ z, testEnv.atomicNumbers "Ni" = some z ∧
      pTest.masses[1]? = some (toString 2 ++ " " ++ massStrOf testEnv z "metal")) := by
  obtain ⟨h1, h2, h3, _⟩ := speciesOrder_spec testEnv "pm" "metal" ["Al", "Ni"]
    none pTest rfl
  exact ⟨h1, h2, h3 1 "Ni" rfl⟩

/-- C3: each generated mass-table line is `"<i+1> <M>"` where `M` renders
the atomic mass of the species at position `i` converted to
`supported_units`; re-parsing the line recovers `i + 1` and `M` (when `M`
contains no space, as a rendered float does); an unknown species symbol
makes the builder fail with the unknown-species `KIMCalculatorError`,
producing no parameter mapping. -/
theorem massLine_spec (env : KIMEnv) (model_name supported_units : String)
    (supported_species : List String) (atom_style : Option String) :
    (∀ p, getParamsForLAMMPSCalculator env model_name supported_units
        supported_species atom_style = .ok p →
      ∀ j s, supported_species[j]? = some s →
        ∃ z, env.atomicNumbers s = some z ∧
          p.masses[j]? =
            some (toString (j + 1) ++ " " ++ massStrOf env z supported_units) ∧
          ((∀ c ∈ (massStrOf env z supported_units).data, c ≠ ' ') →
            parseMassLine ((toString (j + 1) ++ " "
                ++ massStrOf env z supported_units).data) =
              some (j + 1, (massStrOf env z supported_units).data))) ∧
    ((∃ s ∈ supported_species, env.atomicNumbers s = none) →
      ∃ s', s' ∈ supported_species ∧ env.atomicNumbers s' = none ∧
        getParamsForLAMMPSCalculator env model_name supported_units
            supported_species atom_style =
          .error (.kimCalculatorError ("Unknown element species " ++ s' ++ "."))) := by
  constructor
  · intro p h j s hs
    unfold getParamsForLAMMPSCalculator at h
    cases hb : buildMasses env supported_units 0 supported_species with
    | error e => rw [hb] at h; cases h
    | ok ms =>
      rw [hb] at h
      simp only [Except.map] at h
      cases h
      obtain ⟨_, hget⟩ := buildMasses_ok_spec env supported_units
        supported_species 0 ms hb
      obtain ⟨z, hz, hm⟩ := hget j s hs
      exact ⟨z, hz, by simpa using hm,
        fun hns => parseMassLine_roundtrip j (massStrOf env z supported_units) hns⟩
  · intro hex
    obtain ⟨s', hs', hz', hb⟩ := buildMasses_err_spec env supported_units
      supported_species 0 hex
    refine ⟨s', hs', hz', ?_⟩
    unfold getParamsForLAMMPSCalculator
    rw [hb]
    rfl

/-- Witness for C3: the concrete line `"1 13"` for aluminium, and the
unknown-species failure for a species `"Xx"` missing from the table. -/
theorem massLine_spec_witness :
    (∃ z, testEnv.atomicNumbers "Al" = some z ∧
      pTest.masses[0]? = some (toString 1 ++ " " ++ massStrOf testEnv z "metal") ∧
      parseMassLine ((toString 1 ++ " " ++ massStrOf testEnv z "metal").data) =
        some (1, (massStrOf testEnv z "metal").data)) ∧
    (∃ s', s' ∈ ["Al", "Xx"] ∧ testEnv.atomicNumbers s' = none ∧
      getParamsForLAMMPSCalculator testEnv "pm" "metal" ["Al", "Xx"] none =
        .error (.kimCalculatorError ("Unknown element species " ++ s' ++ "."))) := by
  constructor
  · obtain ⟨z, hz, hm, hp⟩ :=
      (massLine_spec testEnv "pm" "metal" ["Al", "Ni"] none).1 pTest rfl 0 "Al" rfl
    have h13 : some z = some (13 : Nat) := hz.symm.trans rfl
    have hz13 : z = 13 := by injection h13
    subst hz13
    exact ⟨13, hz, hm, hp (by decide)⟩
  · exact (massLine_spec testEnv "pm" "metal" ["Al", "Xx"] none).2
      ⟨"Xx", by decide, rfl⟩

/-- C4 counterexample: dispatching the LAMMPS simulator model of `testEnv`
through the default lammpslib path produces a header whose FIRST element is
the `units` command, not the `kim_init` command the claim requires. -/
theorem kimInitFirst_counterexample :
    KIM testEnv "sm_lammps" none none false =
      .ok (.lammpslib (lammpslibModelInit "sm_lammps" "metal")
        (lammpslibKimInteractions ["Al", "Ni"])
        (lammpslibAtomTypes ["Al", "Ni"]) "lammps.log" true []) ∧
    (lammpslibModelInit "sm_lammps" "metal")[0]? =
      some ("units metal" ++ lineSep) ∧
    "units metal" ++ lineSep ≠ "kim_init sm_lammps metal" ++ lineSep :=
  ⟨rfl, rfl, by decide⟩

/-- C4 amended: the lammpsrun parameter builder's initialization list is
exactly `[kim_init <model> <units>]` (so its first element is the
`kim_init` command), while the lammpslib header has the `kim_init` command
as its SECOND element, preceded by a `units` line. -/
theorem kimInitFirst_amended (env : KIMEnv)
    (model_name supported_units : String) (supported_species : List String)
    (atom_style : Option String) (p : LAMMPSParams)
    (h : getParamsForLAMMPSCalculator env model_name supported_units
      supported_species atom_style = .ok p) :
    p.model_init =
      ["kim_init " ++ model_name ++ " " ++ supported_units ++ lineSep] ∧
    (lammpslibModelInit model_name supported_units)[1]? =
      some ("kim_init " ++ model_name ++ " " ++ supported_units ++ lineSep) ∧
    (lammpslibModelInit model_name supported_units)[0]? =
      some ("units " ++ supported_units ++ lineSep) := by
  unfold getParamsForLAMMPSCalculator at h
  cases hb : buildMasses env supported_units 0 supported_species with
  | error e => rw [hb] at h; cases h
  | ok ms =>
    rw [hb] at h
    simp only [Except.map] at h
    cases h
    exact ⟨rfl, rfl, rfl⟩

/-- Witness for the amended C4 at the concrete portable-model parameters. -/
theorem kimInitFirst_amended_witness :
    pTest.model_init = ["kim_init " ++ "pm" ++ " " ++ "metal" ++ lineSep] ∧
    (lammpslibModelInit "pm" "metal")[1]? =
      some ("kim_init " ++ "pm" ++ " " ++ "metal" ++ lineSep) :=
  ⟨(kimInitFirst_amended testEnv "pm" "metal" ["Al", "Ni"] none pTest rfl).1,
   (kimInitFirst_amended testEnv "pm" "metal" ["Al", "Ni"] none pTest rfl).2.1⟩

/-- C5 counterexample: on the simulator-model lammpsrun path, an option
that passes validation (`tmp_dir` is not on the lammpsrun disallow-list)
never reaches the constructed backend: the `LAMMPS` constructor is called
with no caller options at all. -/
theorem optionsMerged_counterexample :
    KIM testEnv "sm_lammps" (some "lammpsrun") (some [("tmp_dir", "x")]) false =
      .ok (.lammps pSmTest ["Al", "Ni"] false []) ∧
    checkConflictOptions [("tmp_dir", "x")] lammpsrunNotAllowedOptions
      "lammpsrun" = .ok () ∧
    (Calc.lammps pSmTest ["Al", "Ni"] false []).optionsOf = some [] ∧
    some ([] : Options) ≠ some [("tmp_dir", "x")] :=
  ⟨rfl, rfl, rfl, by decide⟩

theorem exceptBind_ok {α β : Type} {x : PyResult α} {f : α → PyResult β}
    {c : β} (h : x.bind f = .ok c) : ∃ a, x = .ok a ∧ f a = .ok c := by
  cases x with
  | error e => simp [Except.bind] at h
  | ok a => exact ⟨a, rfl, h⟩

theorem exceptMap_ok {α β : Type} {x : PyResult α} {f : α → β} {c : β}
    (h : x.map f = .ok c) : ∃ a, x = .ok a ∧ f a = c := by
  cases x with
  | error e => simp [Except.map] at h
  | ok a =>
    refine ⟨a, rfl, ?_⟩
    simpa [Except.map] using h

theorem asapCalculatorSm_ok_shape (env : KIMEnv) (mn : String)
    (defn : List String) (units : String) (c : Calc)
    (h : asapCalculatorSm env mn defn units = .ok c) : ∃ e, c = .asapEMT e := by
  unfold asapCalculatorSm at h
  split at h
  · cases h
  · split at h
    · cases h
    · unfold asapSmDefnCheck at h
      cases hc : checkModelDefnShape mn defn with
      | error e => rw [hc] at h; cases h
      | ok u =>
        rw [hc] at h
        simp only [Except.bind] at h
        split at h
        · unfold asapEMTBranch at h
          split at h
          · cases h; exact ⟨_, rfl⟩
          · split at h
            · cases h; exact ⟨_, rfl⟩
            · split at h
              · cases h; exact ⟨_, rfl⟩
              · cases h
        · cases h

/-- C5 amended: caller options reach the constructed backend on every
portable-model path and on the simulator-model lammpslib path; on the
simulator-model lammpsrun path they are validated but the `LAMMPS`
constructor receives no options, and on the simulator-model ASAP path the
constructor takes no caller-options argument at all. -/
theorem optionsMerged_amended (env : KIMEnv) (mn : String)
    (sim : Option String) (opts : Options) (debug : Bool) (c : Calc)
    (h : KIM env mn sim (some opts) debug = .ok c) :
    (isPortableModel env mn = true → c.optionsOf = some opts) ∧
    (isPortableModel env mn = false →
      (c.optionsOf = some opts ∧
        ∃ hdr cmds types lf ka, c = .lammpslib hdr cmds types lf ka opts) ∨
      (∃ p so k, c = .lammps p so k []) ∨
      (∃ e, c = .asapEMT e)) := by
  by_cases hp : isPortableModel env mn = true
  · refine ⟨fun _ => ?_, fun hf => by rw [hp] at hf; cases hf⟩
    simp only [KIM, hp, if_true, Option.getD_some] at h
    split at h
    · obtain ⟨u, -, rfl⟩ := exceptMap_ok h
      rfl
    · split at h
      · obtain ⟨u, -, h⟩ := exceptBind_ok h
        unfold asapCalculatorPm at h
        split at h
        · cases h
        · cases h; rfl
      · split at h
        · obtain ⟨u, -, h⟩ := exceptBind_ok h
          obtain ⟨p, -, rfl⟩ := exceptMap_ok h
          rfl
        · split at h
          · cases h
          · cases h
  · have hpf : isPortableModel env mn = false := by
      cases hv : isPortableModel env mn
      · rfl
      · exact absurd hv hp
    refine ⟨fun ht => ?_, fun _ => ?_⟩
    · rw [hpf] at ht; cases ht
    simp only [KIM, hpf, Bool.false_eq_true, if_false, Option.getD_some] at h
    split at h
    · obtain ⟨u, -, h⟩ := exceptBind_ok h
      exact Or.inr (Or.inr (asapCalculatorSm_ok_shape env mn _ _ c h))
    · split at h
      · split at h
        · obtain ⟨u, -, h⟩ := exceptBind_ok h
          obtain ⟨p, -, rfl⟩ := exceptMap_ok h
          exact Or.inr (Or.inl ⟨p, _, debug, rfl⟩)
        · split at h
          · obtain ⟨u, -, rfl⟩ := exceptMap_ok h
            exact Or.inl ⟨rfl, ⟨_, _, _, _, _, rfl⟩⟩
          · cases h
      · cases h

/-- Witness for the amended C5, on the portable kimmodel path and on the
simulator-model lammpsrun path of the concrete environment. -/
theorem optionsMerged_amended_witness :
    (Calc.kimModel "pm" false [("neigh_skin_ratio", "0.2")]).optionsOf =
      some [("neigh_skin_ratio", "0.2")] ∧
    (((Calc.lammps pSmTest ["Al", "Ni"] false []).optionsOf =
          some [("tmp_dir", "x")] ∧
        ∃ hdr cmds types lf ka, Calc.lammps pSmTest ["Al", "Ni"] false [] =
          .lammpslib hdr cmds types lf ka [("tmp_dir", "x")]) ∨
      (∃ p so k, Calc.lammps pSmTest ["Al", "Ni"] false [] = .lammps p so k []) ∨
      (∃ e, Calc.lammps pSmTest ["Al", "Ni"] false [] = .asapEMT e)) :=
  ⟨(optionsMerged_amended testEnv "pm" none [("neigh_skin_ratio", "0.2")] false
      (Calc.kimModel "pm" false [("neigh_skin_ratio", "0.2")]) rfl).1 rfl,
   (optionsMerged_amended testEnv "sm_lammps" (some "lammpsrun")
      [("tmp_dir", "x")] false (Calc.lammps pSmTest ["Al", "Ni"] false [])
      rfl).2 rfl⟩

/-- C6: on the ASAP simulator-model path (asap3 importable, units already
accepted), the model-definition shape check passes exactly when
`model_defn` is one non-empty string; an empty list, more than one entry,
or an empty-string entry each raise the corresponding
`KIMCalculatorError`, and any shape-check error is the builder's result
(no backend is constructed). -/
theorem malformedDefn_spec (env : KIMEnv) (mn : String) (defn : List String)
    (ha : env.asap3Available = true) :
    (checkModelDefnShape mn defn = .ok () ↔ ∃ d, defn = [d] ∧ d ≠ "") ∧
    (defn = [] → asapCalculatorSm env mn defn "ase" =
      .error (.kimCalculatorError (modelDefnEmptyListMsg mn))) ∧
    (1 < defn.length → asapCalculatorSm env mn defn "ase" =
      .error (.kimCalculatorError (modelDefnTooManyMsg defn.length))) ∧
    (defn = [""] → asapCalculatorSm env mn defn "ase" =
      .error (.kimCalculatorError (modelDefnEmptyStringMsg mn))) ∧
    (∀ e, checkModelDefnShape mn defn = .error e →
      asapCalculatorSm env mn defn "ase" = .error e) := by
  refine ⟨?_, ?_, ?_, ?_, ?_⟩
  · rcases defn with _ | ⟨d, _ | ⟨d2, t⟩⟩
    · simp [checkModelDefnShape]
    · by_cases hd : d = ""
      · subst hd
        simp [checkModelDefnShape]
      · simp [checkModelDefnShape, hd, Ne.symm hd]
    · simp [checkModelDefnShape]
  · intro hd
    subst hd
    simp [asapCalculatorSm, ha, asapSmDefnCheck, checkModelDefnShape, Except.bind]
  · intro hlen
    have h0 : ¬defn.length = 0 := by omega
    simp [asapCalculatorSm, ha, asapSmDefnCheck, checkModelDefnShape, h0, hlen,
      Except.bind]
  · intro hd
    subst hd
    simp [asapCalculatorSm, ha, asapSmDefnCheck, checkModelDefnShape, Except.bind]
  · intro e he
    simp [asapCalculatorSm, ha, asapSmDefnCheck, he, Except.bind]

/-- Witness for C6: the empty definition list fails with the empty-list
error, and a single non-empty line passes the shape check. -/
theorem malformedDefn_spec_witness :
    asapCalculatorSm testEnv "m" [] "ase" =
      .error (.kimCalculatorError (modelDefnEmptyListMsg "m")) ∧
    checkModelDefnShape "m" ["EMT"] = .ok () :=
  ⟨(malformedDefn_spec testEnv "m" [] rfl).2.1 rfl,
   (malformedDefn_spec testEnv "m" ["EMT"] rfl).1.2 ⟨"EMT", rfl, by decide⟩⟩

/-- C7: on the ASAP simulator-model path (asap3 importable), any units tag
other than `"ase"` fails with the unit-mismatch error before anything is
constructed; with `"ase"` the unit check passes (the builder proceeds to
the model-definition stage) and the build succeeds whenever the definition
is one non-empty line whose stripped text starts with `EMT` and whose
parenthesized parameter set (if any) is recognized. -/
theorem unitMismatch_spec (env : KIMEnv) (mn : String) (defn : List String)
    (units : String) (ha : env.asap3Available = true) :
    (units ≠ "ase" → asapCalculatorSm env mn defn units =
      .error (.kimCalculatorError (unitMismatchMsg units))) ∧
    (units = "ase" →
      asapCalculatorSm env mn defn units = asapSmDefnCheck mn defn) ∧
    (units = "ase" → ∀ d, defn = [d] → d ≠ "" →
      pyStartsWith (pyStrip d) "EMT" = true →
      emtDefnRecognized (pyStrip d) = true →
      ∃ e, asapCalculatorSm env mn defn units = .ok (.asapEMT e)) := by
  refine ⟨?_, ?_, ?_⟩
  · intro hu
    simp [asapCalculatorSm, ha, hu]
  · intro hu
    subst hu
    simp [asapCalculatorSm, ha]
  · intro hu d hdefn hd hs hr
    subst hu
    subst hdefn
    have hshape : checkModelDefnShape mn [d] = .ok () := by
      simp [checkModelDefnShape, hd, Ne.symm hd]
    have hsm : asapCalculatorSm env mn [d] "ase" = asapEMTBranch (pyStrip d) := by
      simp [asapCalculatorSm, ha, asapSmDefnCheck, hshape, Except.bind, hs]
    rw [hsm]
    unfold emtDefnRecognized at hr
    cases hm : reSearchParen (pyStrip d).data with
    | none => exact ⟨⟨none, false⟩, by simp [asapEMTBranch, hm]⟩
    | some g =>
      rw [hm] at hr
      by_cases h1 : pyStartsWith (String.mk g) "EMTRasmussenParameters" = true
      · exact ⟨⟨some .rasmussen, false⟩, by simp [asapEMTBranch, hm, h1]⟩
      · have h2 : pyStartsWith (String.mk g) "EMTMetalGlassParameters" = true := by
          rcases Bool.or_eq_true_iff.1 hr with hx | hx
          · exact absurd hx h1
          · exact hx
        exact ⟨⟨some .metalGlass, false⟩, by simp [asapEMTBranch, hm, h1, h2]⟩

/-- Witness for C7: `"metal"` units are rejected with the unit-mismatch
error; `"ase"` units with the definition `["EMT"]` build an asap3 EMT
calculator. -/
theorem unitMismatch_spec_witness :
    asapCalculatorSm testEnv "m" ["EMT"] "metal" =
      .error (.kimCalculatorError (unitMismatchMsg "metal")) ∧
    ∃ e, asapCalculatorSm testEnv "m" ["EMT"] "ase" = .ok (.asapEMT e) :=
  ⟨(unitMismatch_spec testEnv "m" ["EMT"] "metal" rfl).1 (by decide),
   (unitMismatch_spec testEnv "m" ["EMT"] "ase" rfl).2.2 rfl "EMT" rfl
     (by decide) (by decide) (by decide)⟩

/-- C8 failing input: a simulator model native to ASAP with `"ase"` units
whose single model-definition line does not start with `EMT`.  The `if`
chain of `_asap_calculator` assigns the local `asap_calc` only on the EMT
branch, so the unconditional `asap_calc.set_subtractE0(False)` that follows
raises a bare `UnboundLocalError` instead of the descriptive
`KIMCalculatorError` the spec promises for every failure. -/
theorem dispatchError_failing :
    KIM testEnv "sm_asap_lj" none none false =
      .error (.unboundLocal "asap_calc") := rfl

theorem buildMasses_smInfo (env : KIMEnv) (f : String → SMInfo) (u : String) :
    ∀ (l : List String) (i : Nat),
      buildMasses { env with smInfo := f } u i l = buildMasses env u i l := by
  intro l
  induction l with
  | nil => intro i; rfl
  | cons s rest ih =>
    intro i
    cases hz : env.atomicNumbers s with
    | none => simp [buildMasses, hz, massStrOf]
    | some z => simp [buildMasses, hz, massStrOf, ih]

theorem getParams_smInfo (env : KIMEnv) (f : String → SMInfo)
    (mn u : String) (sp : List String) (style : Option String) :
    getParamsForLAMMPSCalculator { env with smInfo := f } mn u sp style =
      getParamsForLAMMPSCalculator env mn u sp style := by
  simp only [getParamsForLAMMPSCalculator, buildMasses_smInfo]

/-- C9: for a model classified Portable, the dispatch result is the same
for every simulator-model metadata store, for every backend argument —
the portable branch never invokes the metadata extraction. -/
theorem portableIndependence_spec (env : KIMEnv) (f : String → SMInfo)
    (mn : String) (sim : Option String) (opts : Option Options) (debug : Bool)
    (hp : isPortableModel env mn = true) :
    KIM { env with smInfo := f } mn sim opts debug =
      KIM env mn sim opts debug := by
  have hp' : isPortableModel { env with smInfo := f } mn = true := hp
  simp only [KIM, hp, hp', if_true, getParams_smInfo]
  rfl

/-- Witness for C9: replacing the whole metadata store of the concrete
environment does not change the dispatch of its portable model. -/
theorem portableIndependence_spec_witness :
    KIM { testEnv with smInfo := otherSmInfo } "pm" none none false =
      KIM testEnv "pm" none none false :=
  portableIndependence_spec testEnv otherSmInfo "pm" none none false rfl

/-- C10: a Portable model dispatched with `simulator="lammpsrun"` gets a
configuration fixed to the `"metal"` unit system: the constructed `LAMMPS`
backend's parameters carry `units = "metal"`, a `kim_init <model> metal`
line, and one mass entry per species converted to `"metal"` units. -/
theorem pmLammpsrunMetal_spec (env : KIMEnv) (mn : String) (opts : Options)
    (debug : Bool) (c : Calc)
    (hp : isPortableModel env mn = true)
    (h : KIM env mn (some "lammpsrun") (some opts) debug = .ok c) :
    ∃ p, c = .lammps p (getKimPmSupportedSpecies env mn) debug opts ∧
      p.units = "metal" ∧
      p.model_init = ["kim_init " ++ mn ++ " " ++ "metal" ++ lineSep] ∧
      p.masses.length = (getKimPmSupportedSpecies env mn).length ∧
      ∀ j s, (getKimPmSupportedSpecies env mn)[j]? = some s →
        ∃ z, env.atomicNumbers s = some z ∧
          p.masses[j]? =
            some (toString (j + 1) ++ " " ++ massStrOf env z "metal") := by
  simp [KIM, hp] at h
  obtain ⟨u, -, h⟩ := exceptBind_ok h
  obtain ⟨p, hb, rfl⟩ := exceptMap_ok h
  refine ⟨p, rfl, ?_⟩
  unfold getParamsForLAMMPSCalculator at hb
  cases hbm : buildMasses env "metal" 0 (getKimPmSupportedSpecies env mn) with
  | error e => rw [hbm] at hb; cases hb
  | ok ms =>
    rw [hbm] at hb
    simp only [Except.map] at hb
    cases hb
    obtain ⟨hlen, hget⟩ := buildMasses_ok_spec env "metal"
      (getKimPmSupportedSpecies env mn) 0 ms hbm
    refine ⟨rfl, rfl, hlen, ?_⟩
    intro j s hs
    obtain ⟨z, hz, hm⟩ := hget j s hs
    exact ⟨z, hz, by simpa using hm⟩

/-- Witness for C10 at the concrete portable model with species
`["Al", "Ni"]`. -/
theorem pmLammpsrunMetal_spec_witness :
    ∃ p, Calc.lammps pTest ["Al", "Ni"] false [("foo", "1")] =
        .lammps p (getKimPmSupportedSpecies testEnv "pm") false [("foo", "1")] ∧
      p.units = "metal" ∧
      p.model_init = ["kim_init " ++ "pm" ++ " " ++ "metal" ++ lineSep] ∧
      p.masses.length = (getKimPmSupportedSpecies testEnv "pm").length ∧
      ∀ j s, (getKimPmSupportedSpecies testEnv "pm")[j]? = some s →
        ∃ z, testEnv.atomicNumbers s = some z ∧
          p.masses[j]? =
            some (toString (j + 1) ++ " " ++ massStrOf testEnv z "metal") :=
  pmLammpsrunMetal_spec testEnv "pm" [("foo", "1")] false
    (Calc.lammps pTest ["Al", "Ni"] false [("foo", "1")]) rfl rfl

end KimDispatch
